import Mathlib

/-!
Verification development for the daily AI-news quiz pipeline
(`quiz_generator.py` and `app/api.py`).

The Python code is embedded shallowly:

* pydantic models become Lean structures;
* the external collaborators (HTTP fetch, language-model chain, database
  client, SMTP relay) become oracle parameters of type `PyResult`, one per
  outbound call, so that a single Lean function captures every behaviour
  of the Python function over all collaborator outcomes;
* Python exceptions become the `PyResult.exn` constructor carrying
  `str(e)`; a `try/except` block becomes a `match` on the first
  `PyResult` produced inside it;
* side effects (client creation, row inserts, e-mails, the log lines a
  claim refers to) are recorded in an event trace returned next to the
  result;
* `random.shuffle` is CPython Fisher-Yates: for `i = n-1, ..., 1` it
  draws `j = randbelow(i+1)` and swaps positions `i` and `j`.  The random
  source is a stream `g : Nat → Nat`; the draw at stream position `pos`
  for bound `i+1` is `g pos % (i+1)`, which ranges over exactly the values
  `randbelow` can return;
* Python object identity, where a claim depends on it, is modelled by a
  heap of option lists indexed by `Nat` references (see the `Heap`
  section near the end of the definitions).
-/

/-- Result of a Python call: normal return, or a raised exception carrying
its textual description `str(e)`. -/
inductive PyResult (α : Type) where
  | ok : α → PyResult α
  | exn : String → PyResult α
deriving DecidableEq, Repr

/-- True exactly when the call returned normally. -/
def PyResult.isOk {α : Type} : PyResult α → Bool
  | .ok _ => true
  | .exn _ => false

/-- Embeds the pydantic model `Option` of `quiz_generator.py` (renamed:
`Option` is taken in Lean): an answer option with its text and a
"true"/"false" correctness flag. -/
structure QuizOption where
  text : String
  correct : String
deriving DecidableEq, Repr

/-- Embeds the scraper output shape: one news item with a title and a
description. -/
structure NewsItem where
  title : String
  description : String
deriving DecidableEq, Repr

/-- Python values that flow through the pipeline as `news_content` /
`content` / metadata values: a string (from `generate_news`), a list of
news dicts (from `generate_news_scrape`), or `None` (scrape failure). -/
inductive PyVal where
  | str : String → PyVal
  | newsList : List NewsItem → PyVal
  | pyNone : PyVal
deriving DecidableEq, Repr

/-- Embeds the pydantic model `QuizQuestion`.  The `metadata` field is
`Dict[str, Any]` in Python; the only values this pipeline ever stores in
it are covered by `PyVal`, so it is modelled as an association list of
`String × PyVal`. -/
structure QuizQuestion where
  question : String
  options : List QuizOption
  news_context : Option String := none
  tags : List String := []
  metadata : List (String × PyVal) := []
deriving DecidableEq, Repr

/-- Embeds the wrapper model `QuizQuestionList`. -/
structure QuizQuestionList where
  questions : List QuizQuestion
deriving DecidableEq, Repr

/-! ### random.shuffle (CPython Fisher-Yates) -/

/-- One in-place swap `x[i], x[j] = x[j], x[i]` on a list value; out of
range indices leave the list unchanged (never exercised by `shuffle`,
whose indices are always in range). -/
def listSwap {α : Type} (l : List α) (i j : Nat) : List α :=
  match l[i]?, l[j]? with
  | some a, some b => (l.set i b).set j a
  | _, _ => l

/-- Embeds the loop of CPython `random.shuffle`: at step `i+1` it draws
`j = g pos % (i+2)` and swaps positions `i+1` and `j`, continuing with the
next stream position down to step `1`. -/
def fisherYatesAux {α : Type} (g : Nat → Nat) : Nat → Nat → List α → List α
  | _, 0, l => l
  | pos, i + 1, l => fisherYatesAux g (pos + 1) i (listSwap l (i + 1) (g pos % (i + 2)))

/-- Embeds `random.shuffle(l)` started at stream position `pos`: swaps run
for `i = length-1, ..., 1`, consuming `length - 1` draws. -/
def shuffleList {α : Type} (g : Nat → Nat) (pos : Nat) (l : List α) : List α :=
  fisherYatesAux g pos (l.length - 1) l

/-! ### shuffle_options -/

/-- Input shapes `shuffle_options` dispatches on: a `QuizQuestionList`
(anything with a `questions` attribute), a bare list of questions, or any
other Python value (which is rejected). -/
inductive McqInput where
  | wrapped : QuizQuestionList → McqInput
  | list : List QuizQuestion → McqInput
  | other : McqInput
deriving DecidableEq, Repr

/-- Embeds the loop of `shuffle_options`: for each question, `model_copy`
then `random.shuffle` of the copy's options.  The random stream position
is threaded across questions: shuffling an `m`-option list consumes
`m - 1` draws.  (Value-level view; the heap model below captures the
object-identity effects of the same loop.) -/
def shuffleQuestions (g : Nat → Nat) : Nat → List QuizQuestion → List QuizQuestion
  | _, [] => []
  | pos, q :: rest =>
    { q with options := shuffleList g pos q.options } ::
      shuffleQuestions g (pos + (q.options.length - 1)) rest

/-- Embeds `shuffle_options(mcq_list)`: accepts a `QuizQuestionList` or a
bare list of questions, raises `ValueError` on anything else. -/
def shuffle_options (g : Nat → Nat) : McqInput → PyResult (List QuizQuestion)
  | .wrapped ql => .ok (shuffleQuestions g 0 ql.questions)
  | .list qs => .ok (shuffleQuestions g 0 qs)
  | .other => .exn "Input must be a QuizQuestionList or a list of questions"

/-! ### Event traces -/

/-- Observable side effects of one call, in order: log lines (the `print`
calls a claim refers to), Supabase client creation, one insert attempt per
row carrying the table name and the serialized row (`model_dump` is the
identity on the embedded record), and e-mail activity. -/
inductive Event where
  | log : String → Event
  | createClient : Event
  | insertAttempt : String → QuizQuestion → Event
  | emailAttempt : String → String → Event
  | emailSent : Event
  | emailFail : String → Event
deriving DecidableEq, Repr

/-- Rows whose insertion was attempted, in order of attempts. -/
def insertedRows (evs : List Event) : List QuizQuestion :=
  evs.filterMap (fun e => match e with | .insertAttempt _ q => some q | _ => none)

/-- Tables named by insert attempts, in order of attempts. -/
def insertedTables (evs : List Event) : List String :=
  evs.filterMap (fun e => match e with | .insertAttempt t _ => some t | _ => none)

/-! ### generate_news_scrape -/

/-- One `story-box` container of the news page: its first `h4` heading and
first `p` paragraph, each possibly absent. -/
structure Article where
  h4 : Option String
  p : Option String
deriving DecidableEq, Repr

/-- Response of `requests.get` on the news URL: HTTP status code and the
parsed story containers. -/
structure ScrapeResponse where
  status_code : Nat
  articles : List Article
deriving DecidableEq, Repr

/-- Extraction for one container: heading text or "No title", first
paragraph text or "No description". -/
def extractNewsItem (a : Article) : NewsItem :=
  { title := a.h4.getD "No title", description := a.p.getD "No description" }

/-- Embeds `generate_news_scrape()`.  The `requests.get` outcome is the
oracle `resp`; on status 200 the articles are mapped to news items; on any
other status the failure is printed and the function falls off the end,
returning `None` (modelled as `Option.none`). -/
def generate_news_scrape (resp : PyResult ScrapeResponse) :
    PyResult (Option (List NewsItem)) × List Event :=
  match resp with
  | .exn e => (.exn e, [])
  | .ok r =>
    if r.status_code = 200 then
      (.ok (some (r.articles.map extractNewsItem)), [])
    else
      (.ok none,
        [.log ("Failed to fetch the webpage. Status code: " ++ toString r.status_code)])

/-! ### insert_quiz_questions -/

/-- Embeds `question.metadata = {"content": content}`: the metadata
mapping is replaced by one holding exactly the key `content`. -/
def setContentMetadata (content : PyVal) (q : QuizQuestion) : QuizQuestion :=
  { q with metadata := [("content", content)] }

/-- Embeds the per-row loop of `insert_quiz_questions`: set the metadata,
attempt the insert into `daily_genai_quiz`, and on failure print the error
and continue with the next row.  `insertOutcome i` is the database's
response to the `i`-th attempt. -/
def insertLoop (insertOutcome : Nat → PyResult Unit) (content : PyVal) :
    Nat → List QuizQuestion → List Event
  | _, [] => []
  | i, q :: rest =>
    let row := setContentMetadata content q
    (Event.insertAttempt "daily_genai_quiz" row ::
        (match insertOutcome i with
         | .ok _ => []
         | .exn e => [Event.log ("An error occurred: " ++ e)])) ++
      insertLoop insertOutcome content (i + 1) rest

/-- Embeds `insert_quiz_questions(questions, content, ...)`: create the
Supabase client (oracle `createClientR`; a raise there propagates),
shuffle the questions, then run the per-row insert loop. -/
def insert_quiz_questions (g : Nat → Nat) (createClientR : PyResult Unit)
    (insertOutcome : Nat → PyResult Unit) (questions : McqInput) (content : PyVal) :
    PyResult Unit × List Event :=
  match createClientR with
  | .exn e => (.exn e, [])
  | .ok _ =>
    match shuffle_options g questions with
    | .exn e => (.exn e, [.createClient])
    | .ok shuffled => (.ok (), .createClient :: insertLoop insertOutcome content 0 shuffled)

/-! ### generate_ai_news_quiz -/

/-- Outcome of `(prompt | llm | parser).invoke(...)` when it does not
raise: either the expected `QuizQuestionList` or a bare list of
questions. -/
inductive ChainOutput where
  | wrapped : QuizQuestionList → ChainOutput
  | bare : List QuizQuestion → ChainOutput
deriving DecidableEq, Repr

/-- Embeds the `isinstance(quiz_result, list)` coercion: a bare list is
wrapped into a `QuizQuestionList`. -/
def wrapResult : ChainOutput → QuizQuestionList
  | .wrapped ql => ql
  | .bare qs => { questions := qs }

/-- Embeds `generate_ai_news_quiz(content, num_questions, ...)`.  The
chain invocation (model call plus schema parse) is the oracle `chainR`; a
raise there, or anywhere else inside the `try` block (e.g. client creation
during persistence), is caught, printed and turned into `[]`.  With a
non-empty parsed result, persistence runs before the questions are
returned; with an empty one, persistence is skipped entirely. -/
def generate_ai_news_quiz (chainR : PyResult ChainOutput) (g : Nat → Nat)
    (createClientR : PyResult Unit) (insertOutcome : Nat → PyResult Unit)
    (content : PyVal) (num_questions : Nat) :
    PyResult (List QuizQuestion) × List Event :=
  match chainR with
  | .exn e => (.ok [], [.log ("Error generating quiz questions: " ++ e)])
  | .ok out =>
    let quiz_result := wrapResult out
    if quiz_result.questions.isEmpty then
      (.ok quiz_result.questions, [])
    else
      match insert_quiz_questions g createClientR insertOutcome
          (McqInput.list quiz_result.questions) content with
      | (.exn e, evs) => (.ok [], evs ++ [.log ("Error generating quiz questions: " ++ e)])
      | (.ok _, evs) => (.ok quiz_result.questions, evs)

/-! ### send_email_notification and generate_daily_quiz -/

/-- Embeds `send_email_notification(subject, body)`: attempts the SMTP
send (oracle `smtpR`); any failure is caught and printed, so the call
itself always returns normally. -/
def send_email_notification (smtpR : PyResult Unit) (subject body : String) :
    PyResult Unit × List Event :=
  match smtpR with
  | .ok _ => (.ok (), [.emailAttempt subject body, .emailSent])
  | .exn e =>
    (.ok (), [.emailAttempt subject body,
      .emailFail ("Failed to send email notification: " ++ e)])

/-- The Python value `generate_daily_quiz` passes on as news content: the
scraped list, or `None` when the scrape returned nothing. -/
def newsContentVal : Option (List NewsItem) → PyVal
  | some items => .newsList items
  | none => .pyNone

/-- Textual rendering of the news content for the report body,
abstracting the exact Python `str()` output of a list of dicts. -/
def pyValText : PyVal → String
  | .str s => s
  | .newsList items =>
    String.intercalate "; " (items.map (fun n => n.title ++ ": " ++ n.description))
  | .pyNone => "None"

/-- Report body of the success path, mirroring the fields of the Python
f-string (triple-quote indentation omitted). -/
def email_body (today status count news : String) : String :=
  "Daily AI News Quiz Generation Report\nDate: " ++ today ++ "\nStatus: " ++ status ++
    "\nNumber of Questions Generated: " ++ count ++ "\nNews Context:\n" ++ news

/-- Embeds the pipeline body `generate_daily_quiz()`.  Scrape, generate
(which persists as a side effect), then report by e-mail; any exception
raised inside the `try` block is caught once here, reported through
`send_email_notification` with `str(e)`, and converted into `[]`. -/
def generate_daily_quiz (scrapeR : PyResult ScrapeResponse) (chainR : PyResult ChainOutput)
    (g : Nat → Nat) (createClientR : PyResult Unit) (insertOutcome : Nat → PyResult Unit)
    (smtpR : PyResult Unit) (today : String) :
    PyResult (List QuizQuestion) × List Event :=
  match generate_news_scrape scrapeR with
  | (.exn e, evs) =>
    let r := send_email_notification smtpR "Daily AI News Quiz Generation Error"
      ("An error occurred during quiz generation: " ++ e)
    (.ok [], evs ++ r.snd)
  | (.ok news, evs) =>
    let news_content := newsContentVal news
    match generate_ai_news_quiz chainR g createClientR insertOutcome news_content 20 with
    | (.exn e, evs2) =>
      let r := send_email_notification smtpR "Daily AI News Quiz Generation Error"
        ("An error occurred during quiz generation: " ++ e)
      (.ok [], evs ++ evs2 ++ r.snd)
    | (.ok generated_quiz, evs2) =>
      let body := email_body today (if generated_quiz.isEmpty then "Failed" else "Success")
        (toString generated_quiz.length) (pyValText news_content)
      let r := send_email_notification smtpR "Daily AI News Quiz Generation Report" body
      (.ok generated_quiz, evs ++ evs2 ++ r.snd)

/-! ### Heap model of shuffle_options (object identity) -/

/-- Heap of Python list objects holding quiz options, indexed by `Nat`
references. -/
abbrev Heap := List (List QuizOption)

/-- A `QuizQuestion` object as it lives in memory: its `options` field is
a reference to a list object on the heap, not a value. -/
structure QuizQuestionRef where
  question : String
  optionsRef : Nat
  news_context : Option String := none
  tags : List String := []
  metadata : List (String × PyVal) := []
deriving DecidableEq, Repr

/-- pydantic `model_copy()` without `deep=True` is a shallow copy: the new
model object carries the same field references — in particular the very
same options list object. -/
def model_copy (q : QuizQuestionRef) : QuizQuestionRef := q

/-- The loop of `shuffle_options` under Python reference semantics:
`mcq_copy = mcq.model_copy()` then `random.shuffle(mcq_copy.options)`,
which rewrites the heap cell `mcq_copy.optionsRef` in place. -/
def shuffleOptionsHeap (g : Nat → Nat) : Nat → Heap → List QuizQuestionRef →
    Heap × List QuizQuestionRef
  | _, heap, [] => (heap, [])
  | pos, heap, mcq :: rest =>
    let mcq_copy := model_copy mcq
    let opts := heap.getD mcq_copy.optionsRef []
    let heap1 := heap.set mcq_copy.optionsRef (shuffleList g pos opts)
    let r := shuffleOptionsHeap g (pos + (opts.length - 1)) heap1 rest
    (r.fst, mcq_copy :: r.snd)

/-! ### Sample values used in concrete evaluations -/

/-- A concrete list of four answer options, as authored by the model. -/
def sampleOptions : List QuizOption :=
  [⟨"Advanced robotics", "false"⟩, ⟨"Artificial neural networks", "true"⟩,
   ⟨"Quantum computing", "false"⟩, ⟨"Machine learning frameworks", "false"⟩]

/-- A concrete quiz question with the four sample options. -/
def sampleQuestion : QuizQuestion :=
  { question := "Which key AI technology was the Nobel Prize in Physics awarded for",
    options := sampleOptions }

/-- A heap holding one options-list object, with two distinct options. -/
def originalHeap : Heap :=
  [[⟨"Advanced robotics", "false"⟩, ⟨"Artificial neural networks", "true"⟩]]

/-- A question object whose options field references heap cell 0. -/
def originalQuestionRef : QuizQuestionRef :=
  { question := "Sample question", optionsRef := 0 }

/-- If position `k` of `t` holds `b`, then writing `x` at that position and
putting `b` in front permutes `x :: t`. -/
theorem cons_set_perm {α : Type} {t : List α} {k : Nat} {b : α} (x : α)
    (h : t[k]? = some b) : (b :: t.set k x).Perm (x :: t) := by
  induction t generalizing k with
  | nil => simp at h
  | cons c t' ih =>
    cases k with
    | zero =>
      simp only [List.getElem?_cons_zero, Option.some.injEq] at h
      subst h
      simpa using List.Perm.swap x c t'
    | succ k' =>
      simp only [List.getElem?_cons_succ] at h
      have h1 : (b :: c :: t'.set k' x).Perm (c :: b :: t'.set k' x) := List.Perm.swap c b _
      have h2 : (c :: b :: t'.set k' x).Perm (c :: x :: t') := List.Perm.cons c (ih h)
      have h3 : (c :: x :: t').Perm (x :: c :: t') := List.Perm.swap x c t'
      simpa using (h1.trans h2).trans h3

/-- Writing `b` at position `i` and `a` at position `j`, where `a` and `b`
are the elements at positions `i` and `j`, permutes the list. -/
theorem set_set_swap_perm {α : Type} :
    ∀ (l : List α) (i j : Nat) (a b : α), l[i]? = some a → l[j]? = some b →
      ((l.set i b).set j a).Perm l := by
  intro l
  induction l with
  | nil => intro i j a b hi _; simp at hi
  | cons x t ih =>
    intro i j a b hi hj
    cases i with
    | zero =>
      simp only [List.getElem?_cons_zero, Option.some.injEq] at hi
      subst hi
      cases j with
      | zero =>
        simp only [List.getElem?_cons_zero, Option.some.injEq] at hj
        subst hj
        simp
      | succ j' =>
        simp only [List.getElem?_cons_succ] at hj
        simpa using cons_set_perm x hj
    | succ i' =>
      simp only [List.getElem?_cons_succ] at hi
      cases j with
      | zero =>
        simp only [List.getElem?_cons_zero, Option.some.injEq] at hj
        subst hj
        simpa using cons_set_perm x hi
      | succ j' =>
        simp only [List.getElem?_cons_succ] at hj
        simpa using List.Perm.cons x (ih i' j' a b hi hj)

/-- A single swap permutes the list. -/
theorem listSwap_perm {α : Type} (l : List α) (i j : Nat) : (listSwap l i j).Perm l := by
  unfold listSwap
  cases hi : l[i]? with
  | none => simp
  | some a =>
    cases hj : l[j]? with
    | none => simp
    | some b => exact set_set_swap_perm l i j a b hi hj

/-- The Fisher-Yates loop permutes the list, for every random stream. -/
theorem fisherYatesAux_perm {α : Type} (g : Nat → Nat) :
    ∀ (i pos : Nat) (l : List α), (fisherYatesAux g pos i l).Perm l := by
  intro i
  induction i with
  | zero => intro pos l; exact List.Perm.refl l
  | succ i ih =>
    intro pos l
    exact (ih (pos + 1) _).trans (listSwap_perm l (i + 1) (g pos % (i + 2)))

/-- `random.shuffle` returns a permutation of its input, for every random
stream and stream position. -/
theorem shuffleList_perm {α : Type} (g : Nat → Nat) (pos : Nat) (l : List α) :
    (shuffleList g pos l).Perm l :=
  fisherYatesAux_perm g (l.length - 1) pos l

/-! ### Helper lemmas -/

/-- The shuffled sequence matches the input pointwise: each output
question's options are a permutation of the corresponding input
question's options, for every random stream and position. -/
theorem shuffleQuestions_forall₂ (g : Nat → Nat) :
    ∀ (pos : Nat) (qs : List QuizQuestion),
      List.Forall₂ (fun q q' => q'.options.Perm q.options) qs (shuffleQuestions g pos qs) := by
  intro pos qs
  induction qs generalizing pos with
  | nil => exact List.Forall₂.nil
  | cons q rest ih =>
    exact List.Forall₂.cons (shuffleList_perm g pos q.options) (ih _)

/-- Shuffling preserves the number of questions. -/
theorem shuffleQuestions_length (g : Nat → Nat) :
    ∀ (pos : Nat) (qs : List QuizQuestion),
      (shuffleQuestions g pos qs).length = qs.length := by
  intro pos qs
  induction qs generalizing pos with
  | nil => rfl
  | cons q rest ih => simp [shuffleQuestions, ih]

/-- The rows whose insertion the loop attempts are exactly the input
questions with their metadata replaced, in order — regardless of which
individual inserts fail. -/
theorem insertedRows_insertLoop (insertOutcome : Nat → PyResult Unit) (content : PyVal) :
    ∀ (i : Nat) (qs : List QuizQuestion),
      insertedRows (insertLoop insertOutcome content i qs) =
        qs.map (setContentMetadata content) := by
  intro i qs
  induction qs generalizing i with
  | nil => rfl
  | cons q rest ih =>
    cases h : insertOutcome i <;>
      simp [insertLoop, insertedRows, h, ← ih (i + 1), List.filterMap_append]

/-- Every insert attempt of the loop names the table `daily_genai_quiz`. -/
theorem insertedTables_insertLoop (insertOutcome : Nat → PyResult Unit) (content : PyVal) :
    ∀ (i : Nat) (qs : List QuizQuestion),
      insertedTables (insertLoop insertOutcome content i qs) =
        List.replicate qs.length "daily_genai_quiz" := by
  intro i qs
  induction qs generalizing i with
  | nil => rfl
  | cons q rest ih =>
    have h2 := ih (i + 1)
    simp only [insertedTables] at h2
    cases h : insertOutcome i <;>
      simp [insertLoop, insertedTables, h, h2, List.filterMap_append, List.replicate_succ]

/-- `generate_ai_news_quiz` returns normally for every collaborator
behaviour: the `try/except` converts any raise into a normal return. -/
theorem generate_ai_news_quiz_isOk (chainR : PyResult ChainOutput) (g : Nat → Nat)
    (createClientR : PyResult Unit) (insertOutcome : Nat → PyResult Unit)
    (content : PyVal) (n : Nat) :
    ((generate_ai_news_quiz chainR g createClientR insertOutcome content n).fst).isOk = true := by
  cases chainR with
  | exn e => rfl
  | ok out =>
    simp only [generate_ai_news_quiz]
    split
    · rfl
    · split <;> rfl

/-- `generate_daily_quiz` returns normally for every collaborator
behaviour: the top-level `try/except` converts any raise into a normal
return. -/
theorem generate_daily_quiz_fst_ok (scrapeR : PyResult ScrapeResponse)
    (chainR : PyResult ChainOutput) (g : Nat → Nat) (createClientR : PyResult Unit)
    (insertOutcome : Nat → PyResult Unit) (smtpR : PyResult Unit) (today : String) :
    ∃ qs, (generate_daily_quiz scrapeR chainR g createClientR insertOutcome
      smtpR today).fst = PyResult.ok qs := by
  unfold generate_daily_quiz
  rcases hs : generate_news_scrape scrapeR with ⟨sres, sevs⟩
  cases sres with
  | exn e => exact ⟨[], rfl⟩
  | ok news =>
    rcases hq : generate_ai_news_quiz chainR g createClientR insertOutcome
        (newsContentVal news) 20 with ⟨qres, qevs⟩
    cases qres with
    | exn e =>
      have hok := generate_ai_news_quiz_isOk chainR g createClientR insertOutcome
        (newsContentVal news) 20
      rw [hq] at hok
      simp [PyResult.isOk] at hok
    | ok qs =>
      refine ⟨qs, ?_⟩
      simp only [hq]

/-! ### Claim theorems -/

/-- C5: every question in the sequence returned by `shuffle_options` has
options that are a permutation of the corresponding input question's
options — the multiset of options within each question is unchanged, only
their order may differ.  Stated for both accepted input shapes. -/
theorem C5_shuffle_options_options_perm (g : Nat → Nat) (qs : List QuizQuestion) :
    shuffle_options g (McqInput.list qs) = PyResult.ok (shuffleQuestions g 0 qs) ∧
    shuffle_options g (McqInput.wrapped ⟨qs⟩) = PyResult.ok (shuffleQuestions g 0 qs) ∧
    List.Forall₂ (fun q q' => q'.options.Perm q.options) qs (shuffleQuestions g 0 qs) :=
  ⟨rfl, rfl, shuffleQuestions_forall₂ g 0 qs⟩

/-- C2: when the model invocation raises or its response fails to parse
(the chain oracle raises), `generate_ai_news_quiz` catches the error,
logs it, and returns the empty sequence; and for every chain outcome
whatsoever the call returns normally, so the underlying error never
propagates to the caller. -/
theorem C2_generate_quiz_error_yields_empty (e : String) (g : Nat → Nat)
    (createClientR : PyResult Unit) (insertOutcome : Nat → PyResult Unit)
    (content : PyVal) (n : Nat) :
    generate_ai_news_quiz (PyResult.exn e) g createClientR insertOutcome content n =
      (PyResult.ok [], [Event.log ("Error generating quiz questions: " ++ e)]) ∧
    ∀ (chainR : PyResult ChainOutput),
      ((generate_ai_news_quiz chainR g createClientR insertOutcome content n).fst).isOk
        = true :=
  ⟨rfl, fun chainR => generate_ai_news_quiz_isOk chainR g createClientR insertOutcome content n⟩

/-- C7: scraping a 200 page with three story containers, the first two
having both a heading and a paragraph and the third missing its
paragraph, yields exactly three news items in page order, the third with
description "No description". -/
theorem C7_scrape_three_containers (t1 d1 t2 d2 t3 : String) :
    generate_news_scrape (PyResult.ok
        ⟨200, [⟨some t1, some d1⟩, ⟨some t2, some d2⟩, ⟨some t3, none⟩]⟩) =
      (PyResult.ok (some [⟨t1, d1⟩, ⟨t2, d2⟩, ⟨t3, "No description"⟩]), []) := rfl

/-- C4: with the client created, `insert_quiz_questions` returns normally
and attempts one insert per question of the batch, whatever the
per-row outcomes `insertOutcome` are — a failing row is caught inside the
loop and never short-circuits the remaining rows. -/
theorem C4_insert_attempts_all_rows (g : Nat → Nat) (insertOutcome : Nat → PyResult Unit)
    (qs : List QuizQuestion) (content : PyVal) :
    (insert_quiz_questions g (PyResult.ok ()) insertOutcome (McqInput.list qs) content).fst =
      PyResult.ok () ∧
    (insertedRows (insert_quiz_questions g (PyResult.ok ()) insertOutcome
        (McqInput.list qs) content).snd).length = qs.length := by
  constructor
  · rfl
  · have h1 : insertedRows (insert_quiz_questions g (PyResult.ok ()) insertOutcome
        (McqInput.list qs) content).snd =
        (shuffleQuestions g 0 qs).map (setContentMetadata content) :=
      insertedRows_insertLoop insertOutcome content 0 (shuffleQuestions g 0 qs)
    rw [h1, List.length_map, shuffleQuestions_length]

/-- C9: every row handed to the database is a shuffled question whose
metadata was first overwritten to the single-key mapping
`content ↦ content`, and every insert goes into the single table
`daily_genai_quiz`, one row per question. -/
theorem C9_rows_metadata_single_table (g : Nat → Nat) (insertOutcome : Nat → PyResult Unit)
    (qs : List QuizQuestion) (content : PyVal) :
    insertedRows (insert_quiz_questions g (PyResult.ok ()) insertOutcome
        (McqInput.list qs) content).snd =
      (shuffleQuestions g 0 qs).map (setContentMetadata content) ∧
    List.Forall (fun row => row.metadata = [("content", content)])
      (insertedRows (insert_quiz_questions g (PyResult.ok ()) insertOutcome
        (McqInput.list qs) content).snd) ∧
    insertedTables (insert_quiz_questions g (PyResult.ok ()) insertOutcome
        (McqInput.list qs) content).snd = List.replicate qs.length "daily_genai_quiz" := by
  have hrows : insertedRows (insert_quiz_questions g (PyResult.ok ()) insertOutcome
      (McqInput.list qs) content).snd =
      (shuffleQuestions g 0 qs).map (setContentMetadata content) :=
    insertedRows_insertLoop insertOutcome content 0 (shuffleQuestions g 0 qs)
  have htab : insertedTables (insert_quiz_questions g (PyResult.ok ()) insertOutcome
      (McqInput.list qs) content).snd =
      List.replicate (shuffleQuestions g 0 qs).length "daily_genai_quiz" :=
    insertedTables_insertLoop insertOutcome content 0 (shuffleQuestions g 0 qs)
  refine ⟨hrows, ?_, ?_⟩
  · rw [hrows, List.forall_map_iff, List.forall_iff_forall_mem]
    intro x _
    rfl
  · rw [htab, shuffleQuestions_length]

/-- C3 counterexample: the claim says the persisted option order is never
the original option order, but `random.shuffle` may draw the identity
permutation.  With draws `j = 3, 2, 1` on a four-option question, the one
persisted row keeps exactly the original option order. -/
theorem C3_counterexample :
    (insertedRows (insert_quiz_questions (fun pos => 3 - pos) (PyResult.ok ())
        (fun _ => PyResult.ok ()) (McqInput.list [sampleQuestion])
        (PyVal.str "sample news")).snd).map QuizQuestion.options =
      [sampleQuestion.options] := rfl

/-- C3 (amended): questions are shuffled before storage — each persisted
row's options are the permutation of the corresponding input question's
options chosen by the random stream, which may coincide with the original
order. -/
theorem C3_persisted_options_perm (g : Nat → Nat) (insertOutcome : Nat → PyResult Unit)
    (qs : List QuizQuestion) (content : PyVal) :
    List.Forall₂ (fun q row => row.options.Perm q.options) qs
      (insertedRows (insert_quiz_questions g (PyResult.ok ()) insertOutcome
        (McqInput.list qs) content).snd) := by
  have hrows : insertedRows (insert_quiz_questions g (PyResult.ok ()) insertOutcome
      (McqInput.list qs) content).snd =
      (shuffleQuestions g 0 qs).map (setContentMetadata content) :=
    insertedRows_insertLoop insertOutcome content 0 (shuffleQuestions g 0 qs)
  rw [hrows, List.forall₂_map_right_iff]
  exact (shuffleQuestions_forall₂ g 0 qs).imp (fun a b h => h)

/-- C10: when the parsed model result contains zero questions,
`generate_ai_news_quiz` returns the empty sequence with an empty trace —
in particular no database client is created and no insert is attempted. -/
theorem C10_empty_parse_skips_persistence (out : ChainOutput) (g : Nat → Nat)
    (createClientR : PyResult Unit) (insertOutcome : Nat → PyResult Unit)
    (content : PyVal) (n : Nat) (h : (wrapResult out).questions = []) :
    generate_ai_news_quiz (PyResult.ok out) g createClientR insertOutcome content n =
      (PyResult.ok [], []) ∧
    Event.createClient ∉
      (generate_ai_news_quiz (PyResult.ok out) g createClientR insertOutcome content n).snd ∧
    insertedRows
      (generate_ai_news_quiz (PyResult.ok out) g createClientR insertOutcome content n).snd
      = [] := by
  have h1 : generate_ai_news_quiz (PyResult.ok out) g createClientR insertOutcome content n =
      (PyResult.ok [], []) := by
    simp [generate_ai_news_quiz, h]
  refine ⟨h1, ?_, ?_⟩ <;> rw [h1] <;> simp [insertedRows]

/-- C10 witness: the empty wrapped result at concrete oracles. -/
theorem C10_witness :
    (wrapResult (ChainOutput.wrapped ⟨[]⟩)).questions = [] ∧
    generate_ai_news_quiz (PyResult.ok (ChainOutput.wrapped ⟨[]⟩)) (fun _ => 0)
        (PyResult.ok ()) (fun _ => PyResult.ok ()) PyVal.pyNone 20 =
      (PyResult.ok [], []) :=
  ⟨rfl, (C10_empty_parse_skips_persistence (ChainOutput.wrapped ⟨[]⟩) (fun _ => 0)
      (PyResult.ok ()) (fun _ => PyResult.ok ()) PyVal.pyNone 20 rfl).1⟩

/-- C8: on a non-200 scrape response, `generate_news_scrape` logs the
failure and returns nothing, and the pipeline run continues: the failure
line appears in the run's trace, and the run's result is exactly the
result of quiz generation applied to `None` news content. -/
theorem C8_non_200_scrape (r : ScrapeResponse) (h : r.status_code ≠ 200)
    (chainR : PyResult ChainOutput) (g : Nat → Nat) (createClientR : PyResult Unit)
    (insertOutcome : Nat → PyResult Unit) (smtpR : PyResult Unit) (today : String) :
    generate_news_scrape (PyResult.ok r) =
      (PyResult.ok none,
        [Event.log ("Failed to fetch the webpage. Status code: " ++
          toString r.status_code)]) ∧
    Event.log ("Failed to fetch the webpage. Status code: " ++ toString r.status_code) ∈
      (generate_daily_quiz (PyResult.ok r) chainR g createClientR insertOutcome
        smtpR today).snd ∧
    (generate_daily_quiz (PyResult.ok r) chainR g createClientR insertOutcome
        smtpR today).fst =
      (generate_ai_news_quiz chainR g createClientR insertOutcome PyVal.pyNone 20).fst := by
  have hs : generate_news_scrape (PyResult.ok r) =
      (PyResult.ok none,
        [Event.log ("Failed to fetch the webpage. Status code: " ++
          toString r.status_code)]) := by
    simp [generate_news_scrape, h]
  have hgen := generate_ai_news_quiz_isOk chainR g createClientR insertOutcome PyVal.pyNone 20
  rcases hq : generate_ai_news_quiz chainR g createClientR insertOutcome PyVal.pyNone 20
    with ⟨qres, qevs⟩
  rw [hq] at hgen
  cases qres with
  | exn e => simp [PyResult.isOk] at hgen
  | ok qsOut =>
    refine ⟨hs, ?_, ?_⟩
    · unfold generate_daily_quiz
      rw [hs]
      simp only [newsContentVal]
      rw [hq]
      simp
    · unfold generate_daily_quiz
      rw [hs]
      simp only [newsContentVal]
      rw [hq]

/-- C8 witness: a concrete 500 response with concrete collaborators. -/
theorem C8_witness :
    ((⟨500, []⟩ : ScrapeResponse).status_code ≠ 200) ∧
    generate_news_scrape (PyResult.ok ⟨500, []⟩) =
      (PyResult.ok none,
        [Event.log ("Failed to fetch the webpage. Status code: " ++
          toString (500 : Nat))]) :=
  ⟨by decide, (C8_non_200_scrape ⟨500, []⟩ (by decide) (PyResult.exn "model down")
      (fun _ => 0) (PyResult.ok ()) (fun _ => PyResult.ok ()) (PyResult.ok ())
      "12th October, 2026").1⟩

/-- C6: the pipeline body returns normally for every collaborator
behaviour, and when an exception is raised inside the run (here: the
scrape fetch, the one call whose raise reaches the top-level handler —
every other boundary catches its own errors, as proved separately), it is
caught at the single top-level handler, reported through the notifier
with the exception text, and converted into the empty result. -/
theorem C6_pipeline_never_raises (e : String) (chainR : PyResult ChainOutput) (g : Nat → Nat)
    (createClientR : PyResult Unit) (insertOutcome : Nat → PyResult Unit)
    (smtpR : PyResult Unit) (today : String) :
    (∀ (scrapeR : PyResult ScrapeResponse),
      ((generate_daily_quiz scrapeR chainR g createClientR insertOutcome
        smtpR today).fst).isOk = true) ∧
    (generate_daily_quiz (PyResult.exn e) chainR g createClientR insertOutcome
        smtpR today).fst = PyResult.ok [] ∧
    Event.emailAttempt "Daily AI News Quiz Generation Error"
        ("An error occurred during quiz generation: " ++ e) ∈
      (generate_daily_quiz (PyResult.exn e) chainR g createClientR insertOutcome
        smtpR today).snd := by
  refine ⟨?_, rfl, ?_⟩
  · intro scrapeR
    obtain ⟨qs, hq⟩ := generate_daily_quiz_fst_ok scrapeR chainR g createClientR
      insertOutcome smtpR today
    rw [hq]
    rfl
  · cases smtpR <;>
      simp [generate_daily_quiz, generate_news_scrape, send_email_notification]

/-- C1 (code-bug demonstration): pydantic `model_copy()` is shallow, so
the copied question shares the caller's options list object; the shuffle
then reorders the original question's options in place.  Concretely:
after the call, the heap cell the original question references holds the
two options in swapped order, while the returned copy still references
that same cell — contradicting the claim (and the code's own comment that
the copy avoids modifying the original). -/
theorem C1_shallow_copy_mutates_original :
    ((shuffleOptionsHeap (fun _ => 0) 0 originalHeap [originalQuestionRef]).fst.getD
        originalQuestionRef.optionsRef []) ≠
      originalHeap.getD originalQuestionRef.optionsRef [] ∧
    (shuffleOptionsHeap (fun _ => 0) 0 originalHeap [originalQuestionRef]).snd.map
        QuizQuestionRef.optionsRef = [originalQuestionRef.optionsRef] :=
  ⟨by decide, rfl⟩
